import Mathlib

/-!
Verification of the Web-Scrapper repository core: the escalation controller,
transport adapters and attempt store of `proxy_scraper.py`, and the probes,
bot/block classifier and strategy recommender of `test_site_access.py`.

Python dictionaries are embedded as Lean structures with `Option` fields for
keys that are not always present; Python strings are sequences of code points,
so string primitives used by the code (slicing, `lower()`, `replace`,
`split`, the `in` substring test) are embedded as functions over `String.data`
(`List Char`), which matches Python code-point semantics.  Network, browser,
filesystem and clock effects are embedded as explicit environment values: an
adapter is a pure function of its inputs and an environment describing what
the outside world did (a response, or an exception carrying a message).
-/

/-! ## Python string primitives -/

/-- Python `s[:n]` on code points. -/
def pyTake (s : String) (n : Nat) : String := String.mk (s.data.take n)

/-- Python `str.lower` restricted to the ASCII range, per code point. -/
def pyLowerChar (c : Char) : Char :=
  if 65 ≤ c.toNat ∧ c.toNat ≤ 90 then Char.ofNat (c.toNat + 32) else c

/-- Python `s.lower()` (the source only compares ASCII signature terms). -/
def pyLower (s : String) : String := String.mk (s.data.map pyLowerChar)

/-- Python `needle in haystack`: substring containment on code points. -/
def strContains (haystack needle : String) : Bool :=
  (List.range (haystack.data.length + 1)).any
    (fun i => needle.data.isPrefixOf (haystack.data.drop i))

/-- Python `s.startswith(pre)`. -/
def pyStartsWith (s pre : String) : Bool := pre.data.isPrefixOf s.data

/-- Fuelled worker for `pyReplace`: replaces every non-overlapping occurrence
of `old` (assumed nonempty) left to right, as Python `str.replace` does. -/
def replaceAux (old new : List Char) : Nat → List Char → List Char
  | _, [] => []
  | 0, l => l
  | fuel+1, c :: rest =>
    if old.isPrefixOf (c :: rest) then
      new ++ replaceAux old new fuel (List.drop old.length (c :: rest))
    else
      c :: replaceAux old new fuel rest

/-- Python `s.replace(old, new)` for nonempty `old` (the source replaces
`"www."`). -/
def pyReplace (s old new : String) : String :=
  String.mk (replaceAux old.data new.data s.data.length s.data)

/-- Python `s.split('.')[0]`: the code points before the first `'.'`
(`str.split` always returns a nonempty list whose head is this prefix). -/
def takeUntilDot : List Char → List Char
  | [] => []
  | c :: rest => if c = '.' then [] else c :: takeUntilDot rest


/-! ## Data model

`ScrapeData` embeds the per-attempt `data` dictionary built by the
`ProxyScraper.method*` adapters in `src/proxy_scraper.py`; `Option` fields are
dictionary keys that are only present on some code paths. -/

structure ScrapeData where
  successful_method : String
  attempt_number : Nat
  proxy_used : String
  final_url : String
  success : Bool := false
  status_code : Option Nat := none
  title : Option String := none
  meta_description : Option String := none
  content_summary : Option String := none
  screenshot_path : Option String := none
  error_message : Option String := none
  load_time_ms : Option Nat := none
deriving DecidableEq

/-- One row of the CSV attempt store, per `ProxyScraper.setup_csv`. -/
structure CsvRow where
  id : String
  session_id : String
  url : String
  final_url : String
  domain : String
  title : String
  meta_description : String
  content_summary : String
  successful_method : String
  attempt_number : Nat
  proxy_used : String
  status_code : Nat
  load_time_ms : Nat
  scraped_at : String
  screenshot_path : String
  error_message : String
deriving DecidableEq

/-! ## Attempt store (`ProxyScraper.save_data`, lines 110-154)

The CSV file is embedded as a `List CsvRow`.  The generated `id`, the session
id, the `scraped_at` timestamp and the `urllib`-computed domain are
environment inputs, as is whether an I/O exception occurs during the save
(in which case `save_data` logs the error and returns `False`). -/

structure StoreEnv where
  record_id : String
  session_id : String
  scraped_at : String
  domain : String
  io_error : Bool

/-- The row `save_data` builds from a data dictionary: absent optional keys
default to the empty string or 0 via `data.get(field, default)`. -/
def mkRow (env : StoreEnv) (url : String) (data : ScrapeData) : CsvRow :=
  { id := env.record_id
    session_id := env.session_id
    url := url
    final_url := data.final_url
    domain := env.domain
    title := data.title.getD ""
    meta_description := data.meta_description.getD ""
    content_summary := data.content_summary.getD ""
    successful_method := data.successful_method
    attempt_number := data.attempt_number
    proxy_used := data.proxy_used
    status_code := data.status_code.getD 0
    load_time_ms := data.load_time_ms.getD 0
    scraped_at := env.scraped_at
    screenshot_path := data.screenshot_path.getD ""
    error_message := data.error_message.getD "" }

/-- `ProxyScraper.save_data`: appends one row and returns `True`; any
exception is caught, logged, and surfaced only as the `False` return value. -/
def save_data (env : StoreEnv) (url : String) (data : ScrapeData)
    (store : List CsvRow) : Bool × List CsvRow :=
  if env.io_error then (false, store)
  else (true, store ++ [mkRow env url data])

/-- Writing a batch of records through `save_data`, threading the store. -/
def save_all (url : String) (batch : List (StoreEnv × ScrapeData))
    (store : List CsvRow) : List CsvRow :=
  batch.foldl (fun st p => (save_data p.1 url p.2 st).2) store

/-! ## Content summary (`proxy_scraper.py` lines 209-211, 305-307, 364-371,
535-542) -/

/-- `all_text[:1000] + '...' if len(all_text) > 1000 else all_text`
(methods 1, 2 and 3). -/
def summarize (t : String) : String :=
  if t.length > 1000 then pyTake t 1000 ++ "..." else t

/-- `content[:1000] + '...' if content and len(content) > 1000 else
(content or '')` (method 4, where `content` may be a falsy value). -/
def summarize4 (c : Option String) : String :=
  match c with
  | none => ""
  | some t => if t ≠ "" ∧ t.length > 1000 then pyTake t 1000 ++ "..." else t

/-! ## Transport adapters 1 and 2 (`method1_simple_requests`,
`method2_enhanced_requests`)

The environment describes the outcome of the `requests.get` call and of the
subsequent BeautifulSoup extraction.  `raised` is an exception (network,
timeout, TLS, ...) before the response fields are recorded; after a response
is recorded the extraction itself may still raise (`Except.error`).  Method 2
additionally issues a HEAD priming request whose failure is only logged
(lines 262-272) and never influences the returned data, so it has no
environment component. -/

structure PageExtract where
  title : String
  meta_description : Option String
  all_text : String

inductive FetchOutcome where
  | raised (msg : String)
  | response (status : Nat) (final_url : String) (ext : Except String PageExtract)

structure Method1Env where
  outcome : FetchOutcome
  load_time_ms : Nat

/-- `ProxyScraper.method1_simple_requests` (lines 156-223). -/
def method1_simple_requests (url : String) (proxy : Option String)
    (attempt : Nat) (env : Method1Env) : ScrapeData :=
  let base : ScrapeData :=
    { successful_method := "simple_requests"
      attempt_number := attempt
      proxy_used := proxy.getD "none"
      final_url := url }
  let data :=
    match env.outcome with
    | .raised msg => { base with success := false, error_message := some msg }
    | .response status final_url ext =>
      let base := { base with status_code := some status, final_url := final_url }
      if status ≥ 400 then
        { base with success := false
                    error_message := some ("HTTP Error: " ++ toString status) }
      else
        match ext with
        | .error msg => { base with success := false, error_message := some msg }
        | .ok pg =>
          { base with title := some pg.title
                      meta_description := pg.meta_description
                      content_summary := some (summarize pg.all_text)
                      success := true }
  { data with load_time_ms := some env.load_time_ms }

/-- `ProxyScraper.method2_enhanced_requests` (lines 225-319): same shape as
method 1 up to the method label (the extra headers, cookies and referrer only
affect the network request itself). -/
def method2_enhanced_requests (url : String) (proxy : Option String)
    (attempt : Nat) (env : Method1Env) : ScrapeData :=
  let base : ScrapeData :=
    { successful_method := "enhanced_requests"
      attempt_number := attempt
      proxy_used := proxy.getD "none"
      final_url := url }
  let data :=
    match env.outcome with
    | .raised msg => { base with success := false, error_message := some msg }
    | .response status final_url ext =>
      let base := { base with status_code := some status, final_url := final_url }
      if status ≥ 400 then
        { base with success := false
                    error_message := some ("HTTP Error: " ++ toString status) }
      else
        match ext with
        | .error msg => { base with success := false, error_message := some msg }
        | .ok pg =>
          { base with title := some pg.title
                      meta_description := pg.meta_description
                      content_summary := some (summarize pg.all_text)
                      success := true }
  { data with load_time_ms := some env.load_time_ms }

/-! ## Transport adapters 3 and 4 (`method3_playwright_basic`,
`method4_playwright_stealth`)

`raised` covers any exception in the `with sync_playwright()` block
(launch, navigation, evaluation, screenshot); `loaded` is a completed pass,
carrying the values the page evaluations produced.  The recorded status is
`response.status if response else 0`, already merged into the environment. -/

inductive BrowserOutcome where
  | raised (msg : String)
  | loaded (status : Nat) (final_url : String) (title : String)
      (meta_description : String) (content : String) (screenshot_path : String)

structure Method3Env where
  outcome : BrowserOutcome
  load_time_ms : Nat

/-- `ProxyScraper.method3_playwright_basic` (lines 321-394). -/
def method3_playwright_basic (url : String) (proxy : Option String)
    (attempt : Nat) (env : Method3Env) : ScrapeData :=
  let base : ScrapeData :=
    { successful_method := "playwright_basic"
      attempt_number := attempt
      proxy_used := proxy.getD "none"
      final_url := url
      screenshot_path := some "" }
  let data :=
    match env.outcome with
    | .raised msg => { base with success := false, error_message := some msg }
    | .loaded status final_url title meta content shot =>
      { base with status_code := some status
                  final_url := final_url
                  title := some title
                  meta_description := some meta
                  content_summary := some (summarize content)
                  screenshot_path := some shot
                  success := true }
  { data with load_time_ms := some env.load_time_ms }

inductive StealthOutcome where
  | raised (msg : String)
  | loaded (status : Nat) (final_url : String) (title : String)
      (meta_description : String) (content : Option String)
      (screenshot_path : String)

structure Method4Env where
  outcome : StealthOutcome
  load_time_ms : Nat

/-- `ProxyScraper.method4_playwright_stealth` (lines 396-565): like method 3
with stealth launch options; the extracted `content` is guarded for
falsiness on line 542. -/
def method4_playwright_stealth (url : String) (proxy : Option String)
    (attempt : Nat) (env : Method4Env) : ScrapeData :=
  let base : ScrapeData :=
    { successful_method := "playwright_stealth"
      attempt_number := attempt
      proxy_used := proxy.getD "none"
      final_url := url
      screenshot_path := some "" }
  let data :=
    match env.outcome with
    | .raised msg => { base with success := false, error_message := some msg }
    | .loaded status final_url title meta content shot =>
      { base with status_code := some status
                  final_url := final_url
                  title := some title
                  meta_description := some meta
                  content_summary := some (summarize4 content)
                  screenshot_path := some shot
                  success := true }
  { data with load_time_ms := some env.load_time_ms }

/-! ## Transport adapter 5 (`method5_domain_verification`, lines 567-628)

The `urllib`-computed domain of the input URL and the outcome of each
`requests.head` existence check are environment inputs: `none` means the
HEAD request raised (the loop catches it and continues), `some status` is a
completed HEAD request. -/

structure Method5Env where
  domain : String
  head : String → Option Nat
  load_time_ms : Nat

/-- The `alt_domains` candidate list of `method5_domain_verification`
(lines 581-597). -/
def alt_domains (domain : String) : List String :=
  let stripped := pyReplace domain "www." ""
  let base :=
    [ "https://" ++ domain
    , "http://" ++ domain
    , "https://www." ++ stripped
    , "http://www." ++ stripped ]
  if domain.data.any (fun c => c = '.') then
    let b := String.mk (takeUntilDot domain.data)
    base ++
      [ "https://" ++ b ++ ".com"
      , "https://www." ++ b ++ ".com"
      , "https://" ++ b ++ ".net"
      , "https://www." ++ b ++ ".net"
      , "https://" ++ b ++ ".org"
      , "https://www." ++ b ++ ".org" ]
  else base

/-- The candidate loop of lines 599-615: a raised HEAD request or a status
of 400+ moves on to the next candidate; the first responding candidate is
returned. -/
def method5_loop (head : String → Option Nat) : List String → Option String
  | [] => none
  | u :: rest =>
    match head u with
    | none => method5_loop head rest
    | some status =>
      if status < 400 then some u else method5_loop head rest

/-- `ProxyScraper.method5_domain_verification`.  On success the source
returns from inside the loop before `load_time_ms` is assigned (line 613
precedes line 626), so `load_time_ms` is only present on the failure path. -/
def method5_domain_verification (url : String) (attempt : Nat)
    (env : Method5Env) : ScrapeData :=
  let base : ScrapeData :=
    { successful_method := "domain_verification"
      attempt_number := attempt
      proxy_used := "none"
      final_url := url }
  match method5_loop env.head (alt_domains env.domain) with
  | some alt_url =>
    { base with final_url := alt_url
                success := true
                content_summary :=
                  some ("Domain verification found alternative URL: " ++ alt_url) }
  | none =>
    { base with success := false
                error_message :=
                  some "Domain verification failed to find alternative URLs"
                load_time_ms := some env.load_time_ms }

/-! ## Escalation controller (`scrape_url_with_multiple_attempts`,
lines 630-696)

One run needs an environment per adapter invocation: `m1`-`m5` for the five
ladder rungs on the cleaned URL, `m4alt` for the stealth retry against the
URL discovered by rung 5, and store environments for the at most two
`save_data` calls.  The randomized inter-attempt `time.sleep` delays do not
affect any recorded value and have no environment component. -/

/-- `ProxyScraper.clean_url` (lines 104-108). -/
def clean_url (url : String) : String :=
  if pyStartsWith url "http://" || pyStartsWith url "https://" then url
  else "https://" ++ url

structure RunEnv where
  m1 : Method1Env
  m2 : Method1Env
  m3 : Method3Env
  m4 : Method4Env
  m5 : Method5Env
  m4alt : Method4Env
  save1 : StoreEnv
  save2 : StoreEnv

/-- `ProxyScraper.scrape_url_with_multiple_attempts`: returns the result
dictionary and the store contents after the run.  `save_data` return values
are discarded, exactly as in the source. -/
def scrape_url_with_multiple_attempts (env : RunEnv) (url0 : String)
    (store0 : List CsvRow) : ScrapeData × List CsvRow :=
  let url := clean_url url0
  let r1 := method1_simple_requests url none 1 env.m1
  if r1.success then (r1, (save_data env.save1 url r1 store0).2) else
  let r2 := method2_enhanced_requests url none 2 env.m2
  if r2.success then (r2, (save_data env.save1 url r2 store0).2) else
  let r3 := method3_playwright_basic url none 3 env.m3
  if r3.success then (r3, (save_data env.save1 url r3 store0).2) else
  let r4 := method4_playwright_stealth url none 4 env.m4
  if r4.success then (r4, (save_data env.save1 url r4 store0).2) else
  let r5 := method5_domain_verification url 5 env.m5
  if r5.success then
    let store1 := (save_data env.save1 url r5 store0).2
    let alt := method4_playwright_stealth r5.final_url none 5 env.m4alt
    if alt.success then
      let altR := { alt with
        successful_method := "domain_verification+playwright_stealth" }
      (altR, (save_data env.save2 url altR store1).2)
    else
      (r5, store1)
  else
    let r5f := { r5 with successful_method := "none" }
    (r5f, (save_data env.save1 url r5f store0).2)

/-- The sequence of adapter invocations performed by
`scrape_url_with_multiple_attempts`, in call order, as pairs of (ladder rung
ordinal of the adapter invoked, whether that invocation succeeded).  The
rung-5 retry re-invokes the rung-4 adapter against the discovered URL. -/
def scrapeTrace (env : RunEnv) (url0 : String) : List (Nat × Bool) :=
  let url := clean_url url0
  let r1 := method1_simple_requests url none 1 env.m1
  if r1.success then [(1, true)] else
  let r2 := method2_enhanced_requests url none 2 env.m2
  if r2.success then [(1, false), (2, true)] else
  let r3 := method3_playwright_basic url none 3 env.m3
  if r3.success then [(1, false), (2, false), (3, true)] else
  let r4 := method4_playwright_stealth url none 4 env.m4
  if r4.success then [(1, false), (2, false), (3, false), (4, true)] else
  let r5 := method5_domain_verification url 5 env.m5
  if r5.success then
    let alt := method4_playwright_stealth r5.final_url none 5 env.m4alt
    if alt.success then
      [(1, false), (2, false), (3, false), (4, false), (5, true), (4, true)]
    else
      [(1, false), (2, false), (3, false), (4, false), (5, true), (4, false)]
  else
    [(1, false), (2, false), (3, false), (4, false), (5, false)]

/-- Holds when, after every successful invocation in the trace, no later
invocation uses a strictly higher ladder rung. -/
def noEscalationAfterSuccess : List (Nat × Bool) → Bool
  | [] => true
  | (k, s) :: rest =>
    (!s || rest.all (fun q => decide (q.1 ≤ k))) && noEscalationAfterSuccess rest

/-! ## Access probes (`test_site_access.py`)

`ProbeResult` embeds the result dictionaries of `test_with_requests` and
`test_with_playwright`; `success` is present in every dictionary the two
functions return, all other keys are path-dependent. -/

structure ProbeResult where
  success : Bool
  status_code : Option Nat := none
  load_time_ms : Option Nat := none
  page_size_kb : Option Nat := none
  redirect_url : Option String := none
  content_type : Option String := none
  headers : Option (List (String × String)) := none
  response_size : Option Nat := none
  title : Option String := none
  error : Option String := none
  error_type : Option String := none
  final_url : Option String := none
  bot_detected : Option Bool := none
  content_size : Option Nat := none
  original_url : Option String := none
deriving DecidableEq

/-- Outcome of the `requests.get` call inside `test_with_requests`:
status, body size in bytes, post-redirect URL, Content-Type header, the
response header mapping, the parsed title (`none` if the page has no title
tag) and whether the BeautifulSoup title extraction raised. -/
structure ReqResponse where
  status_code : Nat
  content_length : Nat
  url : String
  content_type : String
  headers : List (String × String)
  title : Option String
  parse_failed : Bool

/-- An exception is a (message, exception type name) pair mirroring
`str(e)` and `type(e).__name__`. -/
structure RequestProbeEnv where
  outcome : Except (String × String) ReqResponse
  load_time_ms : Nat

/-- `test_with_requests` (`test_site_access.py` lines 48-98). -/
def test_with_requests (env : RequestProbeEnv) : ProbeResult :=
  match env.outcome with
  | .error e => { success := false, error := some e.1, error_type := some e.2 }
  | .ok r =>
    { success := decide (r.status_code < 400)
      status_code := some r.status_code
      load_time_ms := some env.load_time_ms
      page_size_kb := some (r.content_length / 1024)
      redirect_url := some r.url
      content_type := some r.content_type
      headers := some r.headers
      response_size := some r.content_length
      title := some (if r.parse_failed then "Could not parse title"
                     else r.title.getD "No title") }

/-! ## Bot/block classifier (`test_site_access.py` lines 136-149) -/

/-- The fixed signature set `blocked_indicators`. -/
def blocked_indicators : List String :=
  [ "please wait while your request is being verified"
  , "cloudflare"
  , "captcha"
  , "robot check"
  , "are you a robot"
  , "automated requests"
  , "bot detection"
  , "access denied"
  , "blocked" ]

/-- `any(indicator in content for indicator in blocked_indicators)` applied
to the lowercased rendered page content. -/
def classify_blocked (content : String) : Bool :=
  blocked_indicators.any (fun ind => strContains content ind)

/-- Outcome of navigation and extraction inside `test_with_playwright`:
`response.status`, the raw rendered page content (lowercased by the code
itself), the title and the final URL. -/
structure BrowserPage where
  status : Nat
  content : String
  title : String
  final_url : String

structure BrowserProbeEnv where
  outcome : Except (String × String) BrowserPage
  load_time_ms : Nat

/-- `test_with_playwright` (`test_site_access.py` lines 100-177); its two
exception handlers build the same error dictionary. -/
def test_with_playwright (env : BrowserProbeEnv) : ProbeResult :=
  match env.outcome with
  | .error e => { success := false, error := some e.1, error_type := some e.2 }
  | .ok pg =>
    let content := pyLower pg.content
    let bot_detected := classify_blocked content
    { success := decide (pg.status < 400) && !bot_detected
      status_code := some pg.status
      load_time_ms := some env.load_time_ms
      title := some pg.title
      final_url := some pg.final_url
      bot_detected := some bot_detected
      content_size := some content.length }

/-! ## Strategy recommender (`recommend_scrape_method`, lines 179-224) -/

structure Recommendation where
  recommended_method : String
  special_handling : List String
deriving DecidableEq

/-- The rate-limit header names of line 210. -/
def rate_limit_headers : List String :=
  ["x-ratelimit-limit", "x-ratelimit-remaining", "retry-after"]

/-- Python `a != b` where `a` is `.get('redirect_url')` (possibly `None`)
and `b` is a string: `None` never equals a string. -/
def optNeStr (o : Option String) (s : String) : Bool :=
  match o with
  | none => true
  | some v => decide (v ≠ s)

/-- Python string interpolation of a possibly-`None` value. -/
def pyShowOpt (o : Option String) : String :=
  match o with
  | none => "None"
  | some v => v

/-- `recommend_scrape_method`: each rule of the source updates `method`
and/or appends to `special_handling`; the source mutates both under the same
condition, rendered here as paired conditionals. -/
def recommend_scrape_method (request_result browser_result : ProbeResult) :
    Recommendation :=
  let method := "requests_bs4"
  let special_handling : List String := []
  let cond2 := !request_result.success && browser_result.success
  let method := if cond2 then "playwright" else method
  let special_handling :=
    if cond2 then special_handling ++ ["Site requires JavaScript"]
    else special_handling
  let cond3 := !request_result.success && !browser_result.success
  let method := if cond3 then "needs_investigation" else method
  let special_handling :=
    if cond3 then special_handling ++ ["Both methods failed"]
    else special_handling
  let cond4 := browser_result.bot_detected.getD false
  let method :=
    if cond4 then
      if request_result.success then "requests_bs4_enhanced"
      else "advanced_techniques"
    else method
  let special_handling :=
    if cond4 then
      if request_result.success then
        special_handling ++ ["Bot detection present - use enhanced headers"]
      else
        special_handling ++
          ["Strong bot protection - may need proxies or special techniques"]
    else special_handling
  let cond5 := optNeStr request_result.redirect_url
    (request_result.original_url.getD "")
  let special_handling :=
    if cond5 then
      special_handling ++
        ["Site redirects to " ++ pyShowOpt request_result.redirect_url]
    else special_handling
  let cond6 := rate_limit_headers.any
    (fun h => (request_result.headers.getD []).any (fun kv => kv.1 == pyLower h))
  let special_handling :=
    if cond6 then special_handling ++ ["Rate limiting detected - implement delays"]
    else special_handling
  let content_type := pyLower (request_result.content_type.getD "")
  let cond7 := strContains content_type "javascript" || strContains content_type "json"
  let method :=
    if cond7 then (if method = "requests_bs4" then "requests_json" else method)
    else method
  let special_handling :=
    if cond7 then
      special_handling ++ ["Site returns JSON/JavaScript - parse accordingly"]
    else special_handling
  { recommended_method := method, special_handling := special_handling }

/-! ## Sample environments used in concrete evaluations -/

def envStoreOk : StoreEnv :=
  { record_id := "20261012_000000_1000"
    session_id := "proxy_session_20261012_000000"
    scraped_at := "2026-10-12T00:00:00"
    domain := "dead-example.test"
    io_error := false }

def envStoreOk2 : StoreEnv := { envStoreOk with record_id := "20261012_000001_1001" }

def envStoreErr : StoreEnv := { envStoreOk with io_error := true }

/-- A run in which every ladder rung fails. -/
def envAllFail : RunEnv :=
  { m1 := { outcome := .raised "Connection refused", load_time_ms := 10 }
    m2 := { outcome := .raised "Connection refused", load_time_ms := 12 }
    m3 := { outcome := .raised "Timeout 30000ms exceeded", load_time_ms := 30 }
    m4 := { outcome := .raised "Timeout 45000ms exceeded", load_time_ms := 45 }
    m5 := { domain := "dead-example.test", head := fun _ => none, load_time_ms := 9 }
    m4alt := { outcome := .raised "Timeout 45000ms exceeded", load_time_ms := 45 }
    save1 := envStoreOk
    save2 := envStoreOk2 }

/-- Like `envAllFail`, but the single `save_data` call hits an I/O error. -/
def envAllFailSaveErr : RunEnv := { envAllFail with save1 := envStoreErr }

/-- Scenario D of the specification: rungs 1-4 fail, the domain-alternate
prober finds `https://www.dead-example.test`, and the stealth retry against
that URL succeeds. -/
def envScenarioD : RunEnv :=
  { m1 := { outcome := .raised "Connection refused", load_time_ms := 10 }
    m2 := { outcome := .raised "Connection refused", load_time_ms := 12 }
    m3 := { outcome := .raised "Timeout 30000ms exceeded", load_time_ms := 30 }
    m4 := { outcome := .raised "Timeout 45000ms exceeded", load_time_ms := 45 }
    m5 := { domain := "dead-example.test"
            head := fun u => if u = "https://www.dead-example.test" then some 200 else none
            load_time_ms := 9 }
    m4alt := { outcome := .loaded 200 "https://www.dead-example.test"
                 "Dead Example" "" (some "welcome to dead example") "shot.png"
               load_time_ms := 52 }
    save1 := envStoreOk
    save2 := envStoreOk2 }

/-- `env` with the I/O-error flags of both store environments cleared. -/
def clearSaveErrors (env : RunEnv) : RunEnv :=
  { env with save1 := { env.save1 with io_error := false }
             save2 := { env.save2 with io_error := false } }

/-- A record with the optional `error_message` key absent. -/
def dNoErr : ScrapeData :=
  { successful_method := "simple_requests"
    attempt_number := 1
    proxy_used := "none"
    final_url := "https://example.test"
    error_message := none }

/-- The same record with `error_message` present but equal to `""`. -/
def dEmptyErr : ScrapeData := { dNoErr with error_message := some "" }

/-- A two-record batch for the store round-trip. -/
def batchTwo : List (StoreEnv × ScrapeData) :=
  [(envStoreOk, dNoErr), (envStoreOk2, dEmptyErr)]

def envProbe404 : RequestProbeEnv :=
  { outcome := .ok { status_code := 404, content_length := 2048
                     url := "https://example.test/", content_type := "text/html"
                     headers := [], title := some "Not Found", parse_failed := false }
    load_time_ms := 5 }

def envProbeErr : RequestProbeEnv :=
  { outcome := .error ("Connection refused", "ConnectionError"), load_time_ms := 3 }

def pageBot : BrowserPage :=
  { status := 200
    content := "Robot Check - please complete the CAPTCHA to continue"
    title := "Robot Check"
    final_url := "https://example.test/" }

def envBrowserBot : BrowserProbeEnv := { outcome := .ok pageBot, load_time_ms := 7 }

/-- A plain probe result that succeeded (all optional keys untouched). -/
def rrOk : ProbeResult := { success := true }

/-! ## Theorems -/

/-- `strContains` decides genuine substring occurrence. -/
theorem strContains_iff (h n : String) :
    strContains h n = true ↔
      ∃ pre post : List Char, h.data = pre ++ n.data ++ post := by
  constructor
  · intro hc
    rcases (List.any_eq_true).mp hc with ⟨i, _, hp⟩
    rcases (List.isPrefixOf_iff_prefix.mp hp) with ⟨post, hpost⟩
    refine ⟨h.data.take i, post, ?_⟩
    conv_lhs => rw [← List.take_append_drop i h.data]
    rw [← hpost, List.append_assoc]
  · rintro ⟨pre, post, hsplit⟩
    apply (List.any_eq_true).mpr
    refine ⟨pre.length, List.mem_range.mpr ?_, ?_⟩
    · have : h.data.length = pre.length + (n.data.length + post.length) := by
        rw [hsplit, List.append_assoc, List.length_append, List.length_append]
      omega
    · apply List.isPrefixOf_iff_prefix.mpr
      rw [hsplit, List.append_assoc, List.drop_left]
      exact ⟨post, rfl⟩

theorem length_pyTake (s : String) (n : Nat) : (pyTake s n).length ≤ n := by
  have h : (pyTake s n).length = (s.data.take n).length := rfl
  rw [h, List.length_take]
  exact min_le_left n _

theorem summarize_length_le (t : String) : (summarize t).length ≤ 1003 := by
  unfold summarize
  split
  · rw [String.length_append]
    have h1 := length_pyTake t 1000
    have h2 : ("..." : String).length = 3 := rfl
    omega
  · omega

theorem summarize4_eq (c : Option String) :
    summarize4 c = summarize (c.getD "") := by
  cases c with
  | none => rfl
  | some t =>
    by_cases h : t = ""
    · subst h; rfl
    · simp [summarize4, summarize, h]

/-- C4: once the adapter at some ladder rung succeeds, the controller never
invokes an adapter at a strictly higher rung afterwards in that run (the
rung-5 retry re-invokes the rung-4 adapter, which is a lower rung). -/
theorem C4_no_higher_rung_after_success (env : RunEnv) (url : String) :
    noEscalationAfterSuccess (scrapeTrace env url) = true := by
  simp only [scrapeTrace]
  repeat' split
  all_goals decide

/-- C6: every transport adapter is a total function of its inputs and
environment (no exception escapes its boundary), and every failure is mapped
to `success = false` with the exception message recorded in `error_message`;
in particular a raised exception message is stored verbatim. -/
theorem C6_adapters_never_throw (url : String) (proxy : Option String)
    (attempt : Nat) :
    (∀ env : Method1Env,
      (method1_simple_requests url proxy attempt env).success = true ∨
      ((method1_simple_requests url proxy attempt env).success = false ∧
       (method1_simple_requests url proxy attempt env).error_message.isSome = true)) ∧
    (∀ env : Method1Env,
      (method2_enhanced_requests url proxy attempt env).success = true ∨
      ((method2_enhanced_requests url proxy attempt env).success = false ∧
       (method2_enhanced_requests url proxy attempt env).error_message.isSome = true)) ∧
    (∀ env : Method3Env,
      (method3_playwright_basic url proxy attempt env).success = true ∨
      ((method3_playwright_basic url proxy attempt env).success = false ∧
       (method3_playwright_basic url proxy attempt env).error_message.isSome = true)) ∧
    (∀ env : Method4Env,
      (method4_playwright_stealth url proxy attempt env).success = true ∨
      ((method4_playwright_stealth url proxy attempt env).success = false ∧
       (method4_playwright_stealth url proxy attempt env).error_message.isSome = true)) ∧
    (∀ env : Method5Env,
      (method5_domain_verification url attempt env).success = true ∨
      ((method5_domain_verification url attempt env).success = false ∧
       (method5_domain_verification url attempt env).error_message.isSome = true)) ∧
    (∀ (msg : String) (lt : Nat),
      (method1_simple_requests url proxy attempt
          { outcome := .raised msg, load_time_ms := lt }).error_message = some msg ∧
      (method4_playwright_stealth url proxy attempt
          { outcome := .raised msg, load_time_ms := lt }).error_message = some msg) := by
  refine ⟨?_, ?_, ?_, ?_, ?_, ?_⟩
  · rintro ⟨o, lt⟩
    cases o with
    | raised msg => simp [method1_simple_requests]
    | response st fu ext =>
      by_cases h : st ≥ 400
      · simp [method1_simple_requests, h]
      · cases ext <;> simp [method1_simple_requests, h]
  · rintro ⟨o, lt⟩
    cases o with
    | raised msg => simp [method2_enhanced_requests]
    | response st fu ext =>
      by_cases h : st ≥ 400
      · simp [method2_enhanced_requests, h]
      · cases ext <;> simp [method2_enhanced_requests, h]
  · rintro ⟨o, lt⟩
    cases o <;> simp [method3_playwright_basic]
  · rintro ⟨o, lt⟩
    cases o <;> simp [method4_playwright_stealth]
  · intro env
    rcases hm : method5_loop env.head (alt_domains env.domain) with _ | alt <;>
      simp [method5_domain_verification, hm]
  · intro msg lt
    constructor <;> rfl

/-- C9: the bot/block classifier returns `true` exactly when at least one
term of its fixed signature set occurs as a substring of the (lowercased)
rendered content; it is a pure function of the content, and the signature set
contains in particular "captcha", "cloudflare" and "access denied". -/
theorem C9_classifier_signature_set (content : String) :
    (classify_blocked content = true ↔
      ∃ ind, ind ∈ blocked_indicators ∧
        ∃ pre post : List Char, content.data = pre ++ ind.data ++ post) ∧
    "captcha" ∈ blocked_indicators ∧
    "cloudflare" ∈ blocked_indicators ∧
    "access denied" ∈ blocked_indicators := by
  refine ⟨?_, by decide, by decide, by decide⟩
  unfold classify_blocked
  rw [List.any_eq_true]
  constructor
  · rintro ⟨ind, hmem, hc⟩
    exact ⟨ind, hmem, (strContains_iff content ind).mp hc⟩
  · rintro ⟨ind, hmem, hsub⟩
    exact ⟨ind, hmem, (strContains_iff content ind).mpr hsub⟩

/-- C10: the content summary computed by adapters 1-4 is the full extracted
text when it has at most 1000 code points and otherwise its first 1000 code
points followed by `"..."`; hence `content_summary` never exceeds 1003 code
points in any adapter result. -/
theorem C10_content_summary_truncation :
    (∀ t : String,
      (t.length ≤ 1000 → summarize t = t) ∧
      (1000 < t.length → summarize t = pyTake t 1000 ++ "...") ∧
      (summarize t).length ≤ 1003) ∧
    (∀ c : Option String,
      summarize4 c = summarize (c.getD "") ∧ (summarize4 c).length ≤ 1003) ∧
    (∀ (url : String) (proxy : Option String) (attempt : Nat)
        (env : Method1Env) (s : String),
      (method1_simple_requests url proxy attempt env).content_summary = some s →
        s.length ≤ 1003) ∧
    (∀ (url : String) (proxy : Option String) (attempt : Nat)
        (env : Method1Env) (s : String),
      (method2_enhanced_requests url proxy attempt env).content_summary = some s →
        s.length ≤ 1003) ∧
    (∀ (url : String) (proxy : Option String) (attempt : Nat)
        (env : Method3Env) (s : String),
      (method3_playwright_basic url proxy attempt env).content_summary = some s →
        s.length ≤ 1003) ∧
    (∀ (url : String) (proxy : Option String) (attempt : Nat)
        (env : Method4Env) (s : String),
      (method4_playwright_stealth url proxy attempt env).content_summary = some s →
        s.length ≤ 1003) := by
  refine ⟨?_, ?_, ?_, ?_, ?_, ?_⟩
  · intro t
    refine ⟨?_, ?_, summarize_length_le t⟩
    · intro h; simp [summarize, Nat.not_lt.mpr h]
    · intro h; simp [summarize, h]
  · intro c
    refine ⟨summarize4_eq c, ?_⟩
    rw [summarize4_eq c]
    exact summarize_length_le _
  · rintro url proxy attempt ⟨o, lt⟩ s h
    cases o with
    | raised msg => simp [method1_simple_requests] at h
    | response st fu ext =>
      by_cases hst : st ≥ 400
      · simp [method1_simple_requests, hst] at h
      · cases ext with
        | error msg => simp [method1_simple_requests, hst] at h
        | ok pg =>
          simp [method1_simple_requests, hst] at h
          rw [← h]; exact summarize_length_le _
  · rintro url proxy attempt ⟨o, lt⟩ s h
    cases o with
    | raised msg => simp [method2_enhanced_requests] at h
    | response st fu ext =>
      by_cases hst : st ≥ 400
      · simp [method2_enhanced_requests, hst] at h
      · cases ext with
        | error msg => simp [method2_enhanced_requests, hst] at h
        | ok pg =>
          simp [method2_enhanced_requests, hst] at h
          rw [← h]; exact summarize_length_le _
  · rintro url proxy attempt ⟨o, lt⟩ s h
    cases o with
    | raised msg => simp [method3_playwright_basic] at h
    | loaded st fu ti me co sh =>
      simp [method3_playwright_basic] at h
      rw [← h]; exact summarize_length_le _
  · rintro url proxy attempt ⟨o, lt⟩ s h
    cases o with
    | raised msg => simp [method4_playwright_stealth] at h
    | loaded st fu ti me co sh =>
      simp [method4_playwright_stealth] at h
      rw [← h, summarize4_eq]; exact summarize_length_le _

theorem recommend_method_cases (rr br : ProbeResult) :
    (recommend_scrape_method rr br).recommended_method =
      if br.bot_detected.getD false then
        (if rr.success then "requests_bs4_enhanced" else "advanced_techniques")
      else if !rr.success && br.success then "playwright"
      else if !rr.success && !br.success then "needs_investigation"
      else if strContains (pyLower (rr.content_type.getD "")) "javascript" ||
              strContains (pyLower (rr.content_type.getD "")) "json" then
        "requests_json"
      else "requests_bs4" := by
  cases hs : rr.success <;> cases hbs : br.success <;>
    cases hbd : br.bot_detected.getD false <;>
    simp [recommend_scrape_method, hs, hbs, hbd]

theorem recommend_method_bot (rr br : ProbeResult)
    (hbd : br.bot_detected.getD false = true) :
    (recommend_scrape_method rr br).recommended_method =
      if rr.success then "requests_bs4_enhanced" else "advanced_techniques" := by
  rw [recommend_method_cases, hbd]
  simp

theorem recommend_note_bot (rr br : ProbeResult)
    (hbd : br.bot_detected.getD false = true) (hs : rr.success = true) :
    "Bot detection present - use enhanced headers" ∈
      (recommend_scrape_method rr br).special_handling := by
  simp [recommend_scrape_method, hbd, hs]
  repeat' split
  all_goals simp

theorem recommend_json_only_default (rr br : ProbeResult)
    (h : (recommend_scrape_method rr br).recommended_method = "requests_json") :
    rr.success = true ∧ br.bot_detected.getD false = false := by
  rw [recommend_method_cases] at h
  cases hs : rr.success <;> cases hbs : br.success <;>
    cases hbd : br.bot_detected.getD false <;>
    simp [hs, hbs, hbd] at h ⊢

/-- C2: the recommender applies its rules in order with later rules
overriding earlier ones: bot detection in the rendered probe forces the
method to `requests_bs4_enhanced` when the plain probe succeeded and to
`advanced_techniques` otherwise (overriding the JS-required choice), the
content-type rule yields `requests_json` only when the method is still the
`requests_bs4` default, and in particular a rendered page containing
"captcha" together with a successful plain probe yields
`requests_bs4_enhanced` plus the bot-detection note. -/
theorem C2_recommender_precedence (rr br : ProbeResult) :
    (br.bot_detected.getD false = true →
      (recommend_scrape_method rr br).recommended_method =
        if rr.success then "requests_bs4_enhanced" else "advanced_techniques") ∧
    ((recommend_scrape_method rr br).recommended_method = "requests_json" →
      rr.success = true ∧ br.bot_detected.getD false = false) ∧
    (∀ (e : BrowserProbeEnv) (pg : BrowserPage),
      e.outcome = Except.ok pg →
      strContains (pyLower pg.content) "captcha" = true →
      rr.success = true →
      (recommend_scrape_method rr (test_with_playwright e)).recommended_method =
          "requests_bs4_enhanced" ∧
      "Bot detection present - use enhanced headers" ∈
          (recommend_scrape_method rr (test_with_playwright e)).special_handling) := by
  refine ⟨recommend_method_bot rr br, recommend_json_only_default rr br, ?_⟩
  intro e pg he hcap hs
  have hbd : (test_with_playwright e).bot_detected.getD false = true := by
    rcases e with ⟨o, lt⟩
    simp only at he
    subst he
    simp [test_with_playwright, classify_blocked]
    exact ⟨"captcha", by decide, hcap⟩
  constructor
  · rw [recommend_method_bot rr _ hbd, hs]
    simp
  · exact recommend_note_bot rr _ hbd hs

/-- C2 witness: a successful plain probe together with a rendered page whose
content contains "captcha" concretely yields `requests_bs4_enhanced`. -/
theorem C2_recommender_precedence_witness :
    (recommend_scrape_method rrOk (test_with_playwright envBrowserBot)).recommended_method =
      "requests_bs4_enhanced" :=
  ((C2_recommender_precedence rrOk (test_with_playwright envBrowserBot)).2.2
    envBrowserBot pageBot rfl (by decide) rfl).1

/-- C5 counterexample: a plain probe receiving an HTTP 404 response yields a
result with `success = false` and no `error` key at all, so "exactly one of
(succeeded) or (error set)" fails on the code. -/
theorem C5_counterexample :
    (test_with_requests envProbe404).success = false ∧
    (test_with_requests envProbe404).error = none := by decide

/-- C5 (amended): at most one of `success = true` / `error` set holds for
either probe — a set error forces failure and success forces an absent
error — but both can be absent (an HTTP 400+ status or a detected bot wall
fails with no error recorded); moreover `bot_detected = true` forces
`success = false` in the rendered probe, so `botDetected` can never be true
while `succeeded` is true. -/
theorem C5_probe_result_invariant (e : RequestProbeEnv) (e2 : BrowserProbeEnv) :
    ((test_with_requests e).success = true → (test_with_requests e).error = none) ∧
    ((test_with_requests e).error.isSome = true →
      (test_with_requests e).success = false) ∧
    ((test_with_playwright e2).success = true →
      (test_with_playwright e2).error = none) ∧
    ((test_with_playwright e2).error.isSome = true →
      (test_with_playwright e2).success = false) ∧
    ((test_with_playwright e2).bot_detected = some true →
      (test_with_playwright e2).success = false) := by
  rcases e with ⟨o, lt⟩
  rcases e2 with ⟨o2, lt2⟩
  cases o <;> cases o2 <;>
    simp [test_with_requests, test_with_playwright] <;>
    intro h <;> simp [h]

/-- C5 witness: the amended invariant applied to a raised plain probe and to
a rendered probe that hit a bot wall. -/
theorem C5_probe_result_invariant_witness :
    (test_with_requests envProbeErr).success = false ∧
    (test_with_playwright envBrowserBot).success = false :=
  ⟨(C5_probe_result_invariant envProbeErr envBrowserBot).2.1 (by decide),
   (C5_probe_result_invariant envProbeErr envBrowserBot).2.2.2.2 (by decide)⟩

/-- C1 counterexample: in a run where all five rungs fail, the store receives
exactly one row (the final exhausted outcome), not five — the controller does
not append a row after every rung. -/
theorem C1_counterexample :
    (scrape_url_with_multiple_attempts envAllFail "http://dead-example.test" []).2.length = 1 ∧
    ¬ (scrape_url_with_multiple_attempts envAllFail "http://dead-example.test" []).2.length = 5 ∧
    ((scrape_url_with_multiple_attempts envAllFail "http://dead-example.test" []).2.map
        (fun r => r.successful_method)) = ["none"] := by decide

/-- C1 (amended): the controller persists only a successful rung's attempt
(plus the rung-5 retry) or, at exhaustion, one final row; failed intermediate
rungs are never appended.  In a run where all five rungs fail and the store
write succeeds, the store gains exactly one row for the URL, whose
`successful_method` is `"none"`, and the returned result also carries
`successful_method = "none"`. -/
theorem C1_exhausted_single_row (env : RunEnv) (url : String)
    (store0 : List CsvRow)
    (h1 : (method1_simple_requests (clean_url url) none 1 env.m1).success = false)
    (h2 : (method2_enhanced_requests (clean_url url) none 2 env.m2).success = false)
    (h3 : (method3_playwright_basic (clean_url url) none 3 env.m3).success = false)
    (h4 : (method4_playwright_stealth (clean_url url) none 4 env.m4).success = false)
    (h5 : (method5_domain_verification (clean_url url) 5 env.m5).success = false)
    (hio : env.save1.io_error = false) :
    (scrape_url_with_multiple_attempts env url store0).2 =
      store0 ++ [mkRow env.save1 (clean_url url)
        { method5_domain_verification (clean_url url) 5 env.m5 with
            successful_method := "none" }] ∧
    (scrape_url_with_multiple_attempts env url store0).1.successful_method = "none" ∧
    (scrape_url_with_multiple_attempts env url store0).2.length = store0.length + 1 := by
  unfold scrape_url_with_multiple_attempts
  simp [h1, h2, h3, h4, h5, save_data, hio]

/-- C1 witness: the amended behaviour at the concrete all-fail run. -/
theorem C1_exhausted_single_row_witness :
    (scrape_url_with_multiple_attempts envAllFail "http://dead-example.test" []).1.successful_method = "none" ∧
    (scrape_url_with_multiple_attempts envAllFail "http://dead-example.test" []).2.length = 1 :=
  ⟨(C1_exhausted_single_row envAllFail "http://dead-example.test" []
      (by decide) (by decide) (by decide) (by decide) (by decide) (by decide)).2.1,
   (C1_exhausted_single_row envAllFail "http://dead-example.test" []
      (by decide) (by decide) (by decide) (by decide) (by decide) (by decide)).2.2⟩

/-- C3 counterexample: in the Scenario-D run (rungs 1-4 fail, rung 5 finds a
responding variant, the stealth retry succeeds) the store holds exactly 2
rows for the URL, not 6, though the final result does carry the combined
method label. -/
theorem C3_counterexample :
    (scrape_url_with_multiple_attempts envScenarioD "http://dead-example.test" []).2.length = 2 ∧
    ¬ (scrape_url_with_multiple_attempts envScenarioD "http://dead-example.test" []).2.length = 6 ∧
    (scrape_url_with_multiple_attempts envScenarioD "http://dead-example.test" []).1.successful_method =
      "domain_verification+playwright_stealth" := by decide

/-- C3 (amended): when rungs 1-4 fail, rung 5 finds a responding variant and
the stealth retry against it succeeds, the final result carries the combined
label `"domain_verification+playwright_stealth"` — distinct from either
half's own label — and the store gains exactly 2 rows for the URL: the
rung-5 success and the retry success (failed rungs are not persisted). -/
theorem C3_combined_label_two_rows (env : RunEnv) (url : String)
    (store0 : List CsvRow)
    (h1 : (method1_simple_requests (clean_url url) none 1 env.m1).success = false)
    (h2 : (method2_enhanced_requests (clean_url url) none 2 env.m2).success = false)
    (h3 : (method3_playwright_basic (clean_url url) none 3 env.m3).success = false)
    (h4 : (method4_playwright_stealth (clean_url url) none 4 env.m4).success = false)
    (h5 : (method5_domain_verification (clean_url url) 5 env.m5).success = true)
    (halt : (method4_playwright_stealth
        (method5_domain_verification (clean_url url) 5 env.m5).final_url
        none 5 env.m4alt).success = true)
    (hio1 : env.save1.io_error = false)
    (hio2 : env.save2.io_error = false) :
    (scrape_url_with_multiple_attempts env url store0).2 =
      store0 ++
        [mkRow env.save1 (clean_url url)
            (method5_domain_verification (clean_url url) 5 env.m5),
         mkRow env.save2 (clean_url url)
            { method4_playwright_stealth
                (method5_domain_verification (clean_url url) 5 env.m5).final_url
                none 5 env.m4alt with
              successful_method := "domain_verification+playwright_stealth" }] ∧
    (scrape_url_with_multiple_attempts env url store0).1.successful_method =
      "domain_verification+playwright_stealth" ∧
    (scrape_url_with_multiple_attempts env url store0).1.successful_method ≠
      (method5_domain_verification (clean_url url) 5 env.m5).successful_method ∧
    (scrape_url_with_multiple_attempts env url store0).1.successful_method ≠
      (method4_playwright_stealth
        (method5_domain_verification (clean_url url) 5 env.m5).final_url
        none 5 env.m4alt).successful_method ∧
    (scrape_url_with_multiple_attempts env url store0).2.length = store0.length + 2 := by
  have hm5 : (method5_domain_verification (clean_url url) 5 env.m5).successful_method =
      "domain_verification" := by
    unfold method5_domain_verification
    rcases hm : method5_loop env.m5.head (alt_domains env.m5.domain) with _ | alt <;> simp [hm]
  have hm4 : (method4_playwright_stealth
      (method5_domain_verification (clean_url url) 5 env.m5).final_url
      none 5 env.m4alt).successful_method = "playwright_stealth" := by
    unfold method4_playwright_stealth
    rcases env.m4alt with ⟨o, lt⟩
    cases o <;> simp
  unfold scrape_url_with_multiple_attempts
  simp [h1, h2, h3, h4, h5, halt, save_data, hio1, hio2, hm5, hm4]

/-- C3 witness: the amended behaviour at the concrete Scenario-D run. -/
theorem C3_combined_label_two_rows_witness :
    (scrape_url_with_multiple_attempts envScenarioD "http://dead-example.test" []).1.successful_method =
      "domain_verification+playwright_stealth" ∧
    (scrape_url_with_multiple_attempts envScenarioD "http://dead-example.test" []).2.length = 2 :=
  ⟨(C3_combined_label_two_rows envScenarioD "http://dead-example.test" []
      (by decide) (by decide) (by decide) (by decide) (by decide) (by decide)
      (by decide) (by decide)).2.1,
   (C3_combined_label_two_rows envScenarioD "http://dead-example.test" []
      (by decide) (by decide) (by decide) (by decide) (by decide) (by decide)
      (by decide) (by decide)).2.2.2.2⟩

/-- C7 counterexample: a record with `error_message` absent and a record with
`error_message` present-but-empty are distinct, yet `save_data` writes the
identical row for both — the empty-string vs. absent distinction is not
preserved through the store. -/
theorem C7_counterexample :
    dNoErr ≠ dEmptyErr ∧
    (save_data envStoreOk "https://example.test" dNoErr []).2 =
      (save_data envStoreOk "https://example.test" dEmptyErr []).2 := by decide

/-- C7 (amended): appending N records through `save_data` (with no store
I/O error) yields exactly N new rows, in order, each row the fixed projection
of its record in which absent optional fields are defaulted to `""` or `0`
— so all fields are preserved only up to that defaulting, and the
empty-string vs. absent distinction collapses. -/
theorem C7_store_append (url : String) (batch : List (StoreEnv × ScrapeData))
    (store0 : List CsvRow) (h : ∀ p ∈ batch, p.1.io_error = false) :
    save_all url batch store0 =
      store0 ++ batch.map (fun p => mkRow p.1 url p.2) ∧
    (save_all url batch store0).length = store0.length + batch.length := by
  have main : ∀ (b : List (StoreEnv × ScrapeData)) (s0 : List CsvRow),
      (∀ p ∈ b, p.1.io_error = false) →
      save_all url b s0 = s0 ++ b.map (fun p => mkRow p.1 url p.2) := by
    intro b
    induction b with
    | nil => intro s0 _; simp [save_all]
    | cons p rest ih =>
      intro s0 hb
      have hp : p.1.io_error = false := hb p (List.mem_cons_self p rest)
      have hr : ∀ q ∈ rest, q.1.io_error = false :=
        fun q hq => hb q (List.mem_cons_of_mem p hq)
      have step : save_all url (p :: rest) s0 =
          save_all url rest (s0 ++ [mkRow p.1 url p.2]) := by
        simp [save_all, save_data, hp]
      rw [step, ih _ hr]
      simp
  refine ⟨main batch store0 h, ?_⟩
  rw [main batch store0 h]
  simp

/-- C7 witness: the two-record batch is appended as exactly its two projected
rows. -/
theorem C7_store_append_witness :
    save_all "https://example.test" batchTwo [] =
      [mkRow envStoreOk "https://example.test" dNoErr,
       mkRow envStoreOk2 "https://example.test" dEmptyErr] ∧
    (save_all "https://example.test" batchTwo []).length = 2 :=
  ⟨(C7_store_append "https://example.test" batchTwo [] (by decide)).1,
   (C7_store_append "https://example.test" batchTwo [] (by decide)).2⟩

/-- C8 counterexample: with a store I/O error during the single save of an
all-fail run, the controller returns exactly the same result as without the
error and the row is silently lost — the store failure is not surfaced to
the caller. -/
theorem C8_counterexample :
    (scrape_url_with_multiple_attempts envAllFailSaveErr "http://dead-example.test" []).1 =
      (scrape_url_with_multiple_attempts envAllFail "http://dead-example.test" []).1 ∧
    (scrape_url_with_multiple_attempts envAllFailSaveErr "http://dead-example.test" []).2 = [] ∧
    (scrape_url_with_multiple_attempts envAllFail "http://dead-example.test" []).2.length = 1 := by
  decide

/-- C8 (amended): every error kind, including a store persistence failure,
is recovered locally: `save_data` catches the failure and merely returns
`false`, and the controller ignores that return value, so the result seen by
the caller is identical whether or not the store writes failed. -/
theorem C8_store_errors_swallowed (env : RunEnv) (url : String)
    (store0 : List CsvRow) :
    (∀ (senv : StoreEnv) (u : String) (d : ScrapeData) (st : List CsvRow),
        senv.io_error = true → save_data senv u d st = (false, st)) ∧
    (scrape_url_with_multiple_attempts env url store0).1 =
      (scrape_url_with_multiple_attempts (clearSaveErrors env) url store0).1 := by
  constructor
  · intro senv u d st h
    simp [save_data, h]
  · unfold scrape_url_with_multiple_attempts clearSaveErrors
    dsimp only
    split_ifs <;> rfl

/-- C8 witness: a failing save concretely returns `(false, unchanged store)`. -/
theorem C8_store_errors_swallowed_witness :
    save_data envStoreErr "https://example.test" dNoErr [] = (false, []) :=
  (C8_store_errors_swallowed envAllFail "https://example.test" []).1
    envStoreErr "https://example.test" dNoErr [] rfl

/-- C10 witness: the truncation characterization evaluated at a short text. -/
theorem C10_content_summary_truncation_witness :
    summarize "short page text" = "short page text" ∧
    (summarize4 (some "short page text")).length ≤ 1003 :=
  ⟨(C10_content_summary_truncation.1 "short page text").1 (by decide),
   (C10_content_summary_truncation.2.1 (some "short page text")).2⟩
